import Mathlib

/-!
Shallow embedding of the vtds-application-demo repository:
the private application layer (private_application.py) and the two
mock HTTP services (fsm.py and scs.py).  Python dictionaries are
embedded as association lists with insertion-order semantics, JSON
values as an inductive type, and the effectful methods as pure
functions returning Except together with an event trace.
-/

namespace VtdsDemo

/-! JSON-like values, the shallow embedding of the Python data that
flows through json.loads and json.dumps in the mock services. -/

inductive Json where
  | null
  | bool (b : Bool)
  | str (s : String)
  | num (n : Int)
  | arr (elems : List Json)
  | obj (fields : List (String × Json))
deriving Repr

/-! Python dict operations on association lists.  Assignment d[k] = v
updates the value in place when the key is present and appends the
pair otherwise, exactly as a Python dict preserves insertion order. -/

def dictLookup {V : Type} : List (String × V) → String → Option V
  | [], _ => none
  | (k, v) :: rest, key => if k = key then some v else dictLookup rest key

def dictInsert {V : Type} : List (String × V) → String → V → List (String × V)
  | [], key, val => [(key, val)]
  | (k, v) :: rest, key, val =>
      if k = key then (k, val) :: rest else (k, v) :: dictInsert rest key val

def dictKeys {V : Type} (d : List (String × V)) : List String :=
  d.map Prod.fst

/-! Embedding of the cluster-layer collaborator API used by prepare().
The accessors mirror the virtual nodes and virtual networks objects
obtained from stack.get_cluster_api() in private_application.py. -/

structure ClusterAPI where
  node_classes : List String
  network_names : String → List String
  non_cluster_network : String → Bool
  node_count : String → Nat
  node_hostname : String → Nat → String → String
  node_ipv4_addr : String → Nat → String → Option String

/-- Embedding of the node_networks comprehension in prepare(): for each
node class, the network names that are not flagged non-cluster. -/
def node_networks (api : ClusterAPI) : List (String × List String) :=
  api.node_classes.map (fun c =>
    (c, (api.network_names c).filter (fun n => !api.non_cluster_network n)))

/-- Entries produced by the host_ips dict comprehension in prepare(), in
comprehension order: node class outermost, then network, then instance;
a pair is kept when its IPv4 address is not None. -/
def host_ips_entries (api : ClusterAPI) : List (String × String) :=
  (node_networks api).flatMap (fun cn =>
    cn.2.flatMap (fun n =>
      (List.range (api.node_count cn.1)).filterMap (fun i =>
        (api.node_ipv4_addr cn.1 i n).map
          (fun ip => (api.node_hostname cn.1 i n, ip)))))

/-- Embedding of the host_ips dict built by prepare(): the comprehension
entries inserted in order into a Python dict. -/
def host_ips (api : ClusterAPI) : List (String × String) :=
  (host_ips_entries api).foldl (fun d kv => dictInsert d kv.1 kv.2) []

/-- Predicate describing the qualifying (class, instance, network) pairs
of the host_ips comprehension. -/
def QualifyingPair (api : ClusterAPI) (c : String) (i : Nat) (n : String) : Prop :=
  c ∈ api.node_classes ∧ n ∈ api.network_names c ∧
    api.non_cluster_network n = false ∧ i < api.node_count c

/-! Embedding of the PrivateApplication object and its four operations.
The constants APP_CONFIG_NAME, FSM_MOCK_NAME, SCS_MOCK_NAME and
DEPLOY_SCRIPT_NAME together with the helper functions script() and home()
are defined in the package init module, which is not part of src; the
layout structure keeps them abstract, and home is modelled below. -/

structure PackageLayout where
  script : String → String
  build_dir : String
  fsm_mock_name : String
  scs_mock_name : String
  deploy_script_name : String
  app_config_name : String

/-- Embedding of os.path.join for one relative component appended to a
directory that does not end in a separator. -/
def pathJoin (a b : String) : String := a ++ "/" ++ b

/-- Modelled from the spec: the home() helper from the package init module
is absent from src; per the spec the rendered configuration and scripts
are copied to each remote node home directory, and the deploy script is
run from /root, so home(name) is the path of name under /root. -/
def home (name : String) : String := "/root/" ++ name

/-- Embedding of path_join(os.sep, given root and the deploy script name,
used as the remote deploy script path in every manifest. -/
def remoteScriptPath (name : String) : String := "/root/" ++ name

structure Manifest where
  files : List (String × String × String)
  script : String

/-- Embedding of PrivateApplication.__node_manifests, the fixed manifest
dictionary built at construction time. -/
def node_manifests (L : PackageLayout) : List (String × Manifest) :=
  let app_config_path := pathJoin L.build_dir L.app_config_name
  [ ("fsm_node",
      { files :=
          [ (L.script L.fsm_mock_name, home L.fsm_mock_name, "fsm-mock"),
            (L.script L.deploy_script_name, home L.deploy_script_name,
              "node-deploy"),
            (app_config_path, home L.app_config_name, "config") ],
        script := remoteScriptPath L.deploy_script_name }),
    ("scs_node",
      { files :=
          [ (L.script L.scs_mock_name, home L.scs_mock_name, "scs-mock"),
            (L.script L.deploy_script_name, home L.deploy_script_name,
              "deploy"),
            (app_config_path, home L.app_config_name, "config") ],
        script := remoteScriptPath L.deploy_script_name }),
    ("non_fsm_node",
      { files :=
          [ (L.script L.deploy_script_name, home L.deploy_script_name,
              "node-deploy"),
            (app_config_path, home L.app_config_name, "config") ],
        script := remoteScriptPath L.deploy_script_name }),
    ("non_scs_node",
      { files :=
          [ (L.script L.deploy_script_name, home L.deploy_script_name,
              "node-deploy"),
            (app_config_path, home L.app_config_name, "config") ],
        script := remoteScriptPath L.deploy_script_name }) ]

/-- State of a PrivateApplication instance together with the build-local
configuration file it writes: config is the digested application
configuration dict, prepared the readiness flag, and written_config the
parsed content of the file at app_config_path when it has been written.
The YAML serialization itself is delegated to yaml.safe_dump, an external
library call that emits a valid YAML rendering of the mapping it is
given, so the file content is embedded as that mapping. -/
structure AppState where
  config : List (String × Json)
  prepared : Bool
  written_config : Option (List (String × Json))

inductive DeployEvent where
  | sshConnect (node_type : String)
  | copy (source dest tag : String)
  | run (cmd : String)
deriving Repr

/-- Embedding of the placeholder string left in the deploy command for the
external SSH layer to render. -/
def nodeClassTemplate : String := "\x7b\x7b node_class \x7d\x7d"

/-- Embedding of the cmd string assigned inside the copy loop of deploy(). -/
def deployCmd (L : PackageLayout) (deploy_script : String) : String :=
  "chmod 755 " ++ deploy_script ++ ";" ++ "python3 " ++ deploy_script ++ " " ++
    nodeClassTemplate ++ " " ++ home L.app_config_name

/-- Embedding of PrivateApplication.prepare: computes host_ips from the
cluster API, adds it to the configuration under host_ipv4_map, writes the
merged configuration to the build-local file and sets the prepared flag. -/
def prepare (api : ClusterAPI) (st : AppState) : AppState :=
  let hips := host_ips api
  let config2 :=
    dictInsert st.config "host_ipv4_map"
      (Json.obj (hips.map (fun kv => (kv.1, Json.str kv.2))))
  { config := config2, prepared := true, written_config := some config2 }

/-- Embedding of PrivateApplication.validate: raises a ContextualError on
an unprepared application and otherwise does nothing. -/
def validate (st : AppState) : Except String (AppState × List DeployEvent) :=
  if !st.prepared then
    Except.error
      "cannot validate an unprepared application, call prepare() first"
  else Except.ok (st, [])

/-- Embedding of PrivateApplication.remove: raises a ContextualError on an
unprepared application and otherwise does nothing.  The message text in
the source says deploy even though it guards remove. -/
def remove (st : AppState) : Except String (AppState × List DeployEvent) :=
  if !st.prepared then
    Except.error
      "cannot deploy an unprepared application, call prepare() first"
  else Except.ok (st, [])

/-- Embedding of the per-class body of deploy(): one SSH connection per
node class, then the file loop, which both copies each manifest file and
rebinds the local cmd variable on every iteration, then one run_command
with the cmd left by the last iteration.  When the file list is empty the
cmd variable is unbound at the run_command call, which in Python is a
NameError. -/
def deployClassEvents (L : PackageLayout) (node_type : String) (m : Manifest) :
    Except String (List DeployEvent) :=
  let step := m.files.foldl
    (fun (acc : List DeployEvent × Option String) f =>
      (acc.1 ++ [DeployEvent.copy f.1 f.2.1 f.2.2], some (deployCmd L m.script)))
    ([], none)
  match step.2 with
  | none => Except.error "NameError: local variable cmd is unbound"
  | some cmd =>
      Except.ok (DeployEvent.sshConnect node_type :: step.1 ++ [DeployEvent.run cmd])

/-- Embedding of PrivateApplication.deploy: precondition check, then the
per-class traces in manifest dictionary order. -/
def deploy (L : PackageLayout) (st : AppState) :
    Except String (AppState × List DeployEvent) :=
  if !st.prepared then
    Except.error
      "cannot deploy an unprepared application, call prepare() first"
  else
    ((node_manifests L).foldlM
      (fun (acc : List DeployEvent) (cm : String × Manifest) => do
        let es ← deployClassEvents L cm.1 cm.2
        pure (acc ++ es)) []).map (fun evs => (st, evs))

/-- Modelled from the spec: the run_command method of the vtds_base SSH
layer, absent from src, renders the template variable node_class in the
command to the class name of the target nodes before executing it.
RendersTo cls cmd out holds when out is obtained from cmd by replacing
occurrences of the placeholder with the class name. -/
inductive RendersTo (cls : String) : String → String → Prop where
  | refl (s : String) : RendersTo cls s s
  | var : RendersTo cls nodeClassTemplate cls
  | append {a b c d : String} : RendersTo cls a b → RendersTo cls c d →
      RendersTo cls (a ++ c) (b ++ d)

/-! Embedding of the mock HTTP services fsm.py and scs.py.  Requests are
dispatched to a handler with the request method, the caller address and
the request body; outbound HTTP calls through the requests library and
json.loads are external and appear as an oracle structure Net.  Errors a
handler can raise are distinguished by Python exception class. -/

inductive PyErr where
  | contextual (msg : String)
  | keyError (key : String)
  | typeError (msg : String)
  | jsonDecodeError (msg : String)
  | netError (msg : String)
deriving Repr

structure HttpResp where
  ok : Bool
  text : String
  as_str : String
deriving Repr

structure Net where
  url_get : String → Except String HttpResp
  url_post : String → Json → Except String HttpResp
  url_delete : String → Except String HttpResp
  json_loads : String → Except String Json

inductive Resp where
  | text (s : String)
  | jsonBody (j : Json)
  | nonePy
deriving Repr

mutual

/-- Embedding of Python repr on JSON-shaped values, used when a value is
interpolated into a URL with percent-s formatting. -/
def pyRepr : Json → String
  | Json.null => "None"
  | Json.bool b => cond b "True" "False"
  | Json.str s => "\x27" ++ s ++ "\x27"
  | Json.num n => toString n
  | Json.arr xs => "[" ++ pyReprList xs ++ "]"
  | Json.obj fs => "\x7b" ++ pyReprFields fs ++ "\x7d"

def pyReprList : List Json → String
  | [] => ""
  | [x] => pyRepr x
  | x :: y :: rest => pyRepr x ++ ", " ++ pyReprList (y :: rest)

def pyReprFields : List (String × Json) → String
  | [] => ""
  | [(k, v)] => "\x27" ++ k ++ "\x27: " ++ pyRepr v
  | (k, v) :: p :: rest => "\x27" ++ k ++ "\x27: " ++ pyRepr v ++ ", " ++ pyReprFields (p :: rest)

end

/-- Embedding of Python str applied to a JSON-shaped value: identity on
strings and repr on everything else. -/
def pyStr : Json → String
  | Json.str s => s
  | j => pyRepr j

/-- Embedding of Python truthiness for JSON-shaped values. -/
def pyTruthy : Json → Bool
  | Json.null => false
  | Json.bool b => b
  | Json.str s => !(s == "")
  | Json.num n => !(n == 0)
  | Json.arr xs => !xs.isEmpty
  | Json.obj fs => !fs.isEmpty

/-- Embedding of Python subscript v[key] on a JSON-shaped value: a
missing key on a dict is a KeyError and a string subscript on anything
that is not a dict is a TypeError. -/
def jsonSubscript (j : Json) (key : String) : Except PyErr Json :=
  match j with
  | Json.obj fields =>
      match dictLookup fields key with
      | some v => Except.ok v
      | none => Except.error (PyErr.keyError key)
  | _ => Except.error (PyErr.typeError "string subscript on a non-dict value")

/-- Embedding of Python subscript assignment v[key] = val on a
JSON-shaped value. -/
def jsonSetItem (j : Json) (key : String) (val : Json) : Except PyErr Json :=
  match j with
  | Json.obj fields => Except.ok (Json.obj (dictInsert fields key val))
  | _ => Except.error (PyErr.typeError "item assignment on a non-dict value")

/-- Embedding of dict.pop(key, None): the removed value when the key is
present, together with the remaining dict. -/
def dictPop {V : Type} : List (String × V) → String → Option V × List (String × V)
  | [], _ => (none, [])
  | (k, v) :: rest, key =>
      if k = key then (some v, rest)
      else
        let r := dictPop rest key
        (r.1, (k, v) :: r.2)

/-! Embedding of the FSM mock (fsm.py). -/

structure FsmState where
  my_muffin : String
  scs_map : List (String × Json)
deriving Repr

/-- Embedding of the muffin route handler of the FSM mock, declared for
methods GET and POST. -/
def muffin_handler (method body : String) (st : FsmState) :
    Except PyErr (FsmState × Resp) :=
  if method = "POST" then
    Except.ok ({ st with my_muffin := body }, Resp.text body)
  else if method = "GET" then
    Except.ok (st, Resp.text st.my_muffin)
  else
    Except.error (PyErr.contextual
      ("internal error: unknown request method \x27" ++ method ++
        "\x27 passed to \x27/muffin\x27 handler"))

/-- Embedding of retrieve_scone: an outbound GET whose non-ok response is
converted into a descriptive string rather than an error. -/
def retrieve_scone (net : Net) (ip_addr port : String) : Except PyErr String :=
  match net.url_get ("http://" ++ ip_addr ++ ":" ++ port ++ "/scone") with
  | Except.error e => Except.error (PyErr.netError e)
  | Except.ok r =>
      if !r.ok then Except.ok ("scone crumbled - " ++ r.as_str)
      else Except.ok r.text

/-- Embedding of MyData.new_scs_scone in fsm.py: updates the scone field
of the entry for scs_id, swallowing only a KeyError on a missing id. -/
def new_scs_scone (m : List (String × Json)) (scs_id : String) (scone : String) :
    Except PyErr (List (String × Json)) :=
  match dictLookup m scs_id with
  | none => Except.ok m
  | some (Json.obj fields) =>
      Except.ok (dictInsert m scs_id
        (Json.obj (dictInsert fields "scone" (Json.str scone))))
  | some _ => Except.error (PyErr.typeError "item assignment on a non-dict value")

/-- Embedding of the refresh loop in the GET branch of the scs_list
handler: iterates over the registered SCSes, pulling the current scone of
each and recording it. -/
def scs_list_refresh (net : Net) :
    List (String × Json) → List (String × Json) →
      Except PyErr (List (String × Json))
  | m, [] => Except.ok m
  | m, (ip_addr, scs) :: rest => do
      let port ← jsonSubscript scs "port"
      let scone ← retrieve_scone net ip_addr (pyStr port)
      let m2 ← new_scs_scone m ip_addr scone
      scs_list_refresh net m2 rest

/-- Embedding of the scs_list route handler of the FSM mock, declared for
methods GET, POST and DELETE. -/
def scs_list_handler (net : Net) (method remote_addr body : String)
    (st : FsmState) : Except PyErr (FsmState × Resp) :=
  if method = "GET" then do
    let m2 ← scs_list_refresh net st.scs_map st.scs_map
    Except.ok ({ st with scs_map := m2 }, Resp.jsonBody (Json.obj m2))
  else if method = "POST" then
    match net.json_loads body with
    | Except.error e => Except.error (PyErr.jsonDecodeError e)
    | Except.ok info =>
        let m2 := dictInsert st.scs_map remote_addr info
        Except.ok ({ st with scs_map := m2 }, Resp.jsonBody (Json.obj m2))
  else if method = "DELETE" then
    let r := dictPop st.scs_map remote_addr
    Except.ok ({ st with scs_map := r.2 },
      Resp.jsonBody (match r.1 with | some v => v | none => Json.null))
  else
    Except.error (PyErr.contextual
      ("internal error: unknown request method \x27" ++ method ++
        "\x27 passed to \x27/scs_list\x27 handler"))

/-! Embedding of the SCS mock (scs.py). -/

structure ScsState where
  my_scone : String
  fsm : Json
deriving Repr

/-- Embedding of the scone route handler of the SCS mock, declared for
methods GET and POST. -/
def scone_handler (method body : String) (st : ScsState) :
    Except PyErr (ScsState × Resp) :=
  if method = "POST" then
    Except.ok ({ st with my_scone := body }, Resp.text body)
  else if method = "GET" then
    Except.ok (st, Resp.text st.my_scone)
  else
    Except.error (PyErr.contextual
      ("internal error: unknown request method \x27" ++ method ++
        "\x27 passed to \x27/scone\x27 handler"))

/-- Embedding of the fsm route handler of the SCS mock, declared for
methods GET, POST and DELETE.  The server_port argument is the module
global interpolated into the registration payload. -/
def fsm_handler (net : Net) (server_port : String) (method body : String)
    (st : ScsState) : Except PyErr (ScsState × Resp) :=
  if method = "GET" then
    if !(pyTruthy st.fsm) then Except.ok (st, Resp.jsonBody Json.null)
    else do
      let ip ← jsonSubscript st.fsm "ip"
      let port ← jsonSubscript st.fsm "port"
      match net.url_get ("http://" ++ pyStr ip ++ ":" ++ pyStr port ++ "/muffin") with
      | Except.error e => Except.error (PyErr.netError e)
      | Except.ok r =>
          if !r.ok then
            Except.ok (st, Resp.text ("Getting muffin from FSM FAILED: " ++ r.as_str))
          else do
            let fsm2 ← jsonSetItem st.fsm "muffin" (Json.str r.text)
            Except.ok ({ st with fsm := fsm2 }, Resp.jsonBody fsm2)
  else if method = "POST" then
    match net.json_loads body with
    | Except.error e => Except.error (PyErr.jsonDecodeError e)
    | Except.ok fsm_data =>
        match jsonSubscript fsm_data "ip" with
        | Except.error (PyErr.keyError _) => Except.ok (st, Resp.nonePy)
        | Except.error e => Except.error e
        | Except.ok ip =>
            match jsonSubscript fsm_data "port" with
            | Except.error (PyErr.keyError _) => Except.ok (st, Resp.nonePy)
            | Except.error e => Except.error e
            | Except.ok port =>
                match net.url_post
                  ("http://" ++ pyStr ip ++ ":" ++ pyStr port ++ "/scs_list")
                  (Json.obj [("port", Json.str server_port)]) with
                | Except.error e => Except.error (PyErr.netError e)
                | Except.ok r =>
                    if !r.ok then
                      Except.ok (st, Resp.text ("Register with FSM FAILED: " ++ r.as_str))
                    else
                      match net.url_get
                        ("http://" ++ pyStr ip ++ ":" ++ pyStr port ++ "/muffin") with
                      | Except.error e => Except.error (PyErr.netError e)
                      | Except.ok r2 =>
                          if !r2.ok then
                            Except.ok (st, Resp.text
                              ("Getting muffin from FSM FAILED: " ++ r2.as_str))
                          else do
                            let fsm_data2 ←
                              jsonSetItem fsm_data "muffin" (Json.str r2.text)
                            Except.ok ({ st with fsm := fsm_data2 },
                              Resp.jsonBody fsm_data2)
  else if method = "DELETE" then do
    let ip ← jsonSubscript st.fsm "ip"
    let port ← jsonSubscript st.fsm "port"
    match net.url_delete ("http://" ++ pyStr ip ++ ":" ++ pyStr port ++ "/scs_list") with
    | Except.error e => Except.error (PyErr.netError e)
    | Except.ok r =>
        if !r.ok then
          Except.ok (st, Resp.text ("Register with FSM FAILED: " ++ r.as_str))
        else
          Except.ok ({ st with fsm := Json.obj [] }, Resp.jsonBody st.fsm)
  else
    Except.error (PyErr.contextual
      ("internal error: unknown request method \x27" ++ method ++
        "\x27 passed to \x27/fsm\x27 handler"))

/-- Embedding of the scs_list item route handler of the FSM mock,
declared for methods GET and DELETE. -/
def scs_list_item_handler (net : Net) (method scs_id : String) (st : FsmState) :
    Except PyErr (FsmState × Resp) :=
  if method = "GET" then do
    let m2 ← scs_list_refresh net st.scs_map st.scs_map
    Except.ok ({ st with scs_map := m2 },
      Resp.jsonBody (match dictLookup m2 scs_id with
        | some v => v
        | none => Json.null))
  else if method = "DELETE" then
    let r := dictPop st.scs_map scs_id
    Except.ok ({ st with scs_map := r.2 },
      Resp.jsonBody (match r.1 with | some v => v | none => Json.null))
  else
    Except.error (PyErr.contextual
      ("internal error: unknown request method \x27" ++ method ++
        "\x27 passed to \x27/scs-list/<scs_id>\x27 handler"))

/-- Classifier for the internal ContextualError of the mocks, as opposed
to every other Python exception a handler can raise. -/
def errIsInternal : PyErr → Bool
  | PyErr.contextual _ => true
  | _ => false

def isInternalErr {α : Type} : Except PyErr α → Bool
  | Except.error e => errIsInternal e
  | Except.ok _ => false

/-! Embedding of the command line entry points of the two mocks.  The
getopt call is external; a main function receives the parsed option list.
Python int() is embedded as parsing an optional sign and digits after
stripping surrounding whitespace. -/

def digitsToNat (cs : List Char) : Nat :=
  cs.foldl (fun n c => n * 10 + (c.toNat - 48)) 0

/-- Embedding of Python int() on a string: surrounding whitespace is
stripped, then an optional sign followed by a nonempty run of decimal
digits; anything else raises a ValueError, embedded as none.  Digit
group underscores accepted by Python are not modelled. -/
def pyInt (s : String) : Option Int :=
  let cs :=
    ((s.data.dropWhile Char.isWhitespace).reverse.dropWhile
      Char.isWhitespace).reverse
  match cs with
  | [] => none
  | c :: rest =>
      let signed : Bool × List Char :=
        if c = '-' then (true, rest)
        else if c = '+' then (false, rest) else (false, c :: rest)
      if signed.2.isEmpty then none
      else if signed.2.all Char.isDigit then
        some (if signed.1 then -(digitsToNat signed.2 : Int)
          else (digitsToNat signed.2 : Int))
      else none

inductive CliOutcome where
  | listen (port : String)
  | usageError (msg : String)
  | unboundLocal (name : String)
deriving Repr, DecidableEq

/-- Embedding of the option loop shared by both main functions: each -p
option rebinds the port variable to str(int(arg)), and a non-integer
argument raises a UsageError. -/
def parsePortOpts (init : Option String) (optlist : List (String × String)) :
    Except String (Option String) :=
  optlist.foldlM
    (fun acc p =>
      if p.1 = "-p" then
        match pyInt p.2 with
        | some n => Except.ok (some (toString n))
        | none =>
            Except.error
              ("server port (\x27" ++ p.2 ++ "\x27) must be an integer value")
      else Except.ok acc)
    init

/-- Embedding of main in fsm.py: the local variable server_port starts
unbound because the module global is spelled SERVER_PORT and never read,
so reaching app.run without a -p option is an unbound local access. -/
def fsm_main (optlist : List (String × String)) : CliOutcome :=
  match parsePortOpts none optlist with
  | Except.error m => CliOutcome.usageError m
  | Except.ok none => CliOutcome.unboundLocal "server_port"
  | Except.ok (some p) => CliOutcome.listen p

/-- Embedding of main in scs.py: server_port is declared global and the
module initializes it to the string 5000, so it is bound without -p. -/
def scs_main (optlist : List (String × String)) : CliOutcome :=
  match parsePortOpts (some "5000") optlist with
  | Except.error m => CliOutcome.usageError m
  | Except.ok none => CliOutcome.unboundLocal "server_port"
  | Except.ok (some p) => CliOutcome.listen p

/-! Concrete instances used by witnesses and counterexamples. -/

/-- Cluster API on which two qualifying pairs share a hostname with
different IPv4 addresses. -/
def cexApi : ClusterAPI :=
  { node_classes := ["c"]
    network_names := fun _ => ["n"]
    non_cluster_network := fun _ => false
    node_count := fun _ => 2
    node_hostname := fun _ _ _ => "h"
    node_ipv4_addr := fun _ i _ => if i = 0 then some "1.1.1.1" else some "2.2.2.2" }

/-- Cluster API with distinct hostnames, one non-cluster network and one
node without an address. -/
def exApi : ClusterAPI :=
  { node_classes := ["fsm_node", "scs_node"]
    network_names := fun _ => ["net0", "ncn"]
    non_cluster_network := fun n => n = "ncn"
    node_count := fun _ => 1
    node_hostname := fun c i n => c ++ "-" ++ toString i ++ "-" ++ n
    node_ipv4_addr := fun c _ _ => if c = "fsm_node" then some "10.0.0.1" else none }

def exLayout : PackageLayout :=
  { script := fun n => "/pkg/scripts/" ++ n
    build_dir := "/build/application"
    fsm_mock_name := "fsm.py"
    scs_mock_name := "scs.py"
    deploy_script_name := "deploy_to_node.py"
    app_config_name := "config.yaml"
    }

def exUnprepared : AppState :=
  { config := [("k0", Json.str "v0")], prepared := false, written_config := none }

def exPrepared : AppState := prepare exApi exUnprepared

def exFsm0 : FsmState := { my_muffin := "no muffin", scs_map := [] }

def exScs0 : ScsState := { my_scone := "no scone", fsm := Json.obj [] }

/-- FSM peer state used by the C9 witness: its current muffin value is
the string blueberry. -/
def exPeer : FsmState := { my_muffin := "blueberry", scs_map := [] }

/-- Network oracle on which every outbound call succeeds and the peer
answers muffin requests with the current muffin of exPeer. -/
def exNet : Net :=
  { url_get := fun _ =>
      Except.ok { ok := true, text := "blueberry", as_str := "<Response [200]>" }
    url_post := fun _ _ =>
      Except.ok { ok := true, text := "\x7b\x7d", as_str := "<Response [200]>" }
    url_delete := fun _ =>
      Except.ok { ok := true, text := "null", as_str := "<Response [200]>" }
    json_loads := fun _ =>
      Except.ok (Json.obj [("ip", Json.str "10.0.0.1"), ("port", Json.str "5000")]) }

def exBody : String :=
  "\x7b\"ip\": \"10.0.0.1\", \"port\": \"5000\"\x7d"

/-- Stored fsm record expected after the C9 witness registration. -/
def exRecord : List (String × Json) :=
  [("ip", Json.str "10.0.0.1"), ("port", Json.str "5000"),
    ("muffin", Json.str "blueberry")]

/-! Lemmas about the Python dict embedding. -/

theorem dictKeys_insert {V : Type} (d : List (String × V)) (k : String) (v : V) :
    ∀ a, a ∈ dictKeys (dictInsert d k v) ↔ a ∈ dictKeys d ∨ a = k := by
  intro a
  induction d with
  | nil => simp [dictInsert, dictKeys]
  | cons p rest ih =>
      obtain ⟨k0, v0⟩ := p
      by_cases h : k0 = k
      · subst h
        simp [dictInsert, dictKeys]
        tauto
      · simp only [dictInsert, if_neg h, dictKeys, List.map_cons, List.mem_cons]
        rw [show dictKeys (dictInsert rest k v) = (dictInsert rest k v).map Prod.fst from rfl] at ih
        simp only [dictKeys, List.map_cons] at ih ⊢
        rw [ih]
        tauto

theorem dictInsert_eq_append {V : Type} (d : List (String × V)) (k : String) (v : V)
    (h : k ∉ dictKeys d) : dictInsert d k v = d ++ [(k, v)] := by
  induction d with
  | nil => rfl
  | cons p rest ih =>
      obtain ⟨k0, v0⟩ := p
      simp only [dictKeys, List.map_cons, List.mem_cons, not_or] at h
      simp only [dictInsert, if_neg (fun hh : k0 = k => h.1 hh.symm)]
      rw [ih (by simpa [dictKeys] using h.2)]
      simp

theorem dictLookup_of_mem_nodup {V : Type} (d : List (String × V))
    (hnd : (dictKeys d).Nodup) (k : String) (v : V) (hm : (k, v) ∈ d) :
    dictLookup d k = some v := by
  induction d with
  | nil => cases hm
  | cons p rest ih =>
      obtain ⟨k0, v0⟩ := p
      simp only [dictKeys, List.map_cons, List.nodup_cons] at hnd
      rcases List.mem_cons.mp hm with h | h
      · injection h with h1 h2
        subst h1
        subst h2
        simp [dictLookup]
      · have hk : k0 ≠ k := by
          intro he
          exact hnd.1 (he ▸ (List.mem_map.mpr ⟨(k, v), h, rfl⟩))
        simp only [dictLookup, if_neg hk]
        exact ih hnd.2 h

theorem dictLookup_mem {V : Type} (d : List (String × V)) (k : String) (v : V)
    (h : dictLookup d k = some v) : (k, v) ∈ d := by
  induction d with
  | nil => cases h
  | cons p rest ih =>
      obtain ⟨k0, v0⟩ := p
      by_cases hk : k0 = k
      · subst hk
        simp only [dictLookup, if_pos rfl] at h
        injection h with h
        subst h
        exact List.mem_cons_self _ _
      · simp only [dictLookup, if_neg hk] at h
        exact List.mem_cons_of_mem _ (ih h)

/-! Claim theorems for the deployment driver. -/

/-- C1: on an application where prepare has not completed, each of
deploy, validate and remove raises a ContextualError with a descriptive
message and does nothing else, and after prepare has completed none of
them raises that precondition error. -/
theorem claim_C1 (L : PackageLayout) (api : ClusterAPI) (st : AppState) :
    (st.prepared = false →
      validate st = Except.error
        "cannot validate an unprepared application, call prepare() first" ∧
      deploy L st = Except.error
        "cannot deploy an unprepared application, call prepare() first" ∧
      remove st = Except.error
        "cannot deploy an unprepared application, call prepare() first") ∧
    ((prepare api st).prepared = true ∧
      (∃ r, validate (prepare api st) = Except.ok r) ∧
      (∃ r, deploy L (prepare api st) = Except.ok r) ∧
      (∃ r, remove (prepare api st) = Except.ok r)) := by
  constructor
  · intro h
    refine ⟨?_, ?_, ?_⟩ <;> simp [validate, deploy, remove, h]
  · exact ⟨rfl, ⟨_, rfl⟩, ⟨_, rfl⟩, ⟨_, rfl⟩⟩

/-- Witness for C1 at a concrete unprepared application. -/
theorem claim_C1_witness :
    validate exUnprepared = Except.error
      "cannot validate an unprepared application, call prepare() first" ∧
    deploy exLayout exUnprepared = Except.error
      "cannot deploy an unprepared application, call prepare() first" ∧
    remove exUnprepared = Except.error
      "cannot deploy an unprepared application, call prepare() first" :=
  (claim_C1 exLayout exApi exUnprepared).1 rfl

/-- C3: after prepare the written configuration file holds the merged
mapping, whose keys are every key of the original configuration plus the
key host_ipv4_map.  The textual validity of the file as YAML is the
contract of yaml.safe_dump, an external library, so the file content is
embedded as the mapping handed to it. -/
theorem claim_C3 (api : ClusterAPI) (st : AppState) :
    (prepare api st).written_config = some ((prepare api st).config) ∧
    (∀ k, k ∈ dictKeys st.config → k ∈ dictKeys ((prepare api st).config)) ∧
    "host_ipv4_map" ∈ dictKeys ((prepare api st).config) := by
  refine ⟨rfl, ?_, ?_⟩
  · intro k hk
    exact (dictKeys_insert _ _ _ k).mpr (Or.inl hk)
  · exact (dictKeys_insert _ _ _ _).mpr (Or.inr rfl)

/-- Witness for C3 at a concrete configuration. -/
theorem claim_C3_witness :
    "k0" ∈ dictKeys ((prepare exApi exUnprepared).config) ∧
    "host_ipv4_map" ∈ dictKeys ((prepare exApi exUnprepared).config) :=
  ⟨(claim_C3 exApi exUnprepared).2.1 "k0" (by simp [exUnprepared, dictKeys]),
    (claim_C3 exApi exUnprepared).2.2⟩

/-- C5: on a prepared application, validate and remove return without
changing any state and without emitting any external effect. -/
theorem claim_C5 (st : AppState) (h : st.prepared = true) :
    validate st = Except.ok (st, []) ∧ remove st = Except.ok (st, []) := by
  simp [validate, remove, h]

/-- Witness for C5 at a concrete prepared application. -/
theorem claim_C5_witness :
    validate exPrepared = Except.ok (exPrepared, []) ∧
    remove exPrepared = Except.ok (exPrepared, []) :=
  claim_C5 exPrepared rfl

/-! Lemmas and claim theorem for the host_ipv4_map computation. -/

theorem mem_host_ips_entries (api : ClusterAPI) (k ip : String) :
    (k, ip) ∈ host_ips_entries api ↔
      ∃ c i n, QualifyingPair api c i n ∧
        api.node_hostname c i n = k ∧ api.node_ipv4_addr c i n = some ip := by
  simp only [host_ips_entries, node_networks, List.mem_flatMap, List.mem_map,
    List.mem_filterMap, List.mem_range, Option.map_eq_some']
  constructor
  · rintro ⟨cn, ⟨c, hc, rfl⟩, n, hn, i, hi, a, ha, heq⟩
    simp only [List.mem_filter, Bool.not_eq_true'] at hn
    injection heq with h1 h2
    exact ⟨c, i, n, ⟨hc, hn.1, hn.2, hi⟩, h1, h2 ▸ ha⟩
  · rintro ⟨c, i, n, ⟨hc, hn, hnc, hi⟩, rfl, hip⟩
    refine ⟨(c, (api.network_names c).filter (fun m => !api.non_cluster_network m)),
      ⟨c, hc, rfl⟩, n, ?_, i, hi, ip, hip, rfl⟩
    simp [List.mem_filter, hn, hnc]

theorem foldl_dictInsert_append {V : Type} (l : List (String × V)) :
    ∀ d : List (String × V), (dictKeys (d ++ l)).Nodup →
      l.foldl (fun acc kv => dictInsert acc kv.1 kv.2) d = d ++ l := by
  induction l with
  | nil => intro d _; simp
  | cons kv rest ih =>
      intro d h
      obtain ⟨k, v⟩ := kv
      have hsplit : (dictKeys d ++ dictKeys ((k, v) :: rest)).Nodup := by
        simpa [dictKeys, List.map_append] using h
      have hk : k ∉ dictKeys d := by
        intro hkd
        have hdisj := (List.nodup_append.mp hsplit).2.2
        exact hdisj hkd (by simp [dictKeys])
      rw [List.foldl_cons, dictInsert_eq_append d k v hk]
      have h2 : (dictKeys ((d ++ [(k, v)]) ++ rest)).Nodup := by
        simpa [dictKeys, List.map_append, List.append_assoc] using h
      have := ih (d ++ [(k, v)]) h2
      simpa [List.append_assoc] using this

theorem host_ips_eq_entries (api : ClusterAPI)
    (h : (dictKeys (host_ips_entries api)).Nodup) :
    host_ips api = host_ips_entries api := by
  simpa [host_ips] using foldl_dictInsert_append (host_ips_entries api) [] (by simpa using h)

/-- C2 (amended): provided the hostnames of the qualifying pairs are
pairwise distinct, host_ipv4_map has an entry mapping the hostname of
every (node instance, network) pair whose network is not flagged
non-cluster and whose IPv4 address is not None to that address, and has
no other entries.  Without the distinctness proviso the claim fails, see
the counterexample. -/
theorem claim_C2 (api : ClusterAPI)
    (hnd : (dictKeys (host_ips_entries api)).Nodup) :
    (∀ c i n ip, QualifyingPair api c i n →
      api.node_ipv4_addr c i n = some ip →
      dictLookup (host_ips api) (api.node_hostname c i n) = some ip) ∧
    (∀ k v, dictLookup (host_ips api) k = some v →
      ∃ c i n, QualifyingPair api c i n ∧
        api.node_hostname c i n = k ∧ api.node_ipv4_addr c i n = some v) := by
  rw [host_ips_eq_entries api hnd]
  constructor
  · intro c i n ip hq hip
    exact dictLookup_of_mem_nodup _ hnd _ _
      ((mem_host_ips_entries api _ ip).mpr ⟨c, i, n, hq, rfl, hip⟩)
  · intro k v hl
    exact (mem_host_ips_entries api k v).mp (dictLookup_mem _ _ _ hl)

/-- Counterexample to C2 as stated: on cexApi the pair of instance 0 on
network n qualifies with address 1.1.1.1, yet host_ipv4_map holds only
the later entry for the shared hostname h, so no entry maps the hostname
of that pair to its address. -/
theorem claim_C2_counterexample :
    QualifyingPair cexApi "c" 0 "n" ∧
    cexApi.node_ipv4_addr "c" 0 "n" = some "1.1.1.1" ∧
    host_ips cexApi = [("h", "2.2.2.2")] ∧
    dictLookup (host_ips cexApi) (cexApi.node_hostname "c" 0 "n") ≠
      some "1.1.1.1" := by
  refine ⟨⟨?_, ?_, ?_, ?_⟩, rfl, by decide, by decide⟩ <;> decide

/-- Witness for C2 at a cluster API with pairwise distinct hostnames. -/
theorem claim_C2_witness :
    dictLookup (host_ips exApi) (exApi.node_hostname "fsm_node" 0 "net0") =
      some "10.0.0.1" :=
  (claim_C2 exApi (by decide)).1 "fsm_node" 0 "net0" "10.0.0.1"
    ⟨by decide, by decide, by decide, by decide⟩ (by decide)

/-! Lemmas and claim theorem for the deploy trace. -/

theorem str_append_assoc (a b c : String) : (a ++ b) ++ c = a ++ (b ++ c) := by
  apply String.ext
  simp [String.data_append, List.append_assoc]

theorem rendersTo_deployCmd (cls s conf : String) :
    RendersTo cls
      ("chmod 755 " ++ s ++ ";" ++ "python3 " ++ s ++ " " ++ nodeClassTemplate ++
        " " ++ conf)
      ("chmod 755 " ++ s ++ ";" ++ "python3 " ++ s ++ " " ++ cls ++ " " ++ conf) := by
  have h := RendersTo.append
    (RendersTo.refl ("chmod 755 " ++ s ++ ";" ++ "python3 " ++ s ++ " "))
    (RendersTo.append (@RendersTo.var cls) (RendersTo.refl (" " ++ conf)))
  have e1 : ("chmod 755 " ++ s ++ ";" ++ "python3 " ++ s ++ " ") ++
      (nodeClassTemplate ++ (" " ++ conf)) =
      "chmod 755 " ++ s ++ ";" ++ "python3 " ++ s ++ " " ++ nodeClassTemplate ++
        " " ++ conf := by
    simp [str_append_assoc]
  have e2 : ("chmod 755 " ++ s ++ ";" ++ "python3 " ++ s ++ " ") ++
      (cls ++ (" " ++ conf)) =
      "chmod 755 " ++ s ++ ";" ++ "python3 " ++ s ++ " " ++ cls ++ " " ++ conf := by
    simp [str_append_assoc]
  rw [e1, e2] at h
  exact h

/-- C4: on a prepared application, deploy produces per node class one SSH
session, the copies of that class manifest files in the order listed,
and after the last copy exactly one run_command, whose command the
external SSH layer renders to an invocation of the class deploy script
with the node class name and the remote config path as arguments. -/
theorem claim_C4 (L : PackageLayout) (st : AppState) (h : st.prepared = true) :
    deploy L st = Except.ok (st,
      (node_manifests L).flatMap (fun cm =>
        DeployEvent.sshConnect cm.1 ::
          (cm.2.files.map (fun f => DeployEvent.copy f.1 f.2.1 f.2.2) ++
            [DeployEvent.run (deployCmd L cm.2.script)]))) ∧
    (∀ cm ∈ node_manifests L,
      RendersTo cm.1 (deployCmd L cm.2.script)
        ("chmod 755 " ++ cm.2.script ++ ";" ++ "python3 " ++ cm.2.script ++ " " ++
          cm.1 ++ " " ++ home L.app_config_name)) := by
  constructor
  · simp only [deploy, h, Bool.not_true, Bool.false_eq_true, if_false]
    rfl
  · intro cm hcm
    simp only [node_manifests, List.mem_cons, List.not_mem_nil, or_false] at hcm
    rcases hcm with rfl | rfl | rfl | rfl <;>
      exact rendersTo_deployCmd _ _ _

/-- Witness for C4 at a concrete layout and prepared application. -/
theorem claim_C4_witness :
    (deploy exLayout exPrepared).isOk = true ∧
    RendersTo "fsm_node"
      (deployCmd exLayout (remoteScriptPath exLayout.deploy_script_name))
      ("chmod 755 " ++ remoteScriptPath exLayout.deploy_script_name ++ ";" ++
        "python3 " ++ remoteScriptPath exLayout.deploy_script_name ++ " " ++
        "fsm_node" ++ " " ++ home exLayout.app_config_name) := by
  constructor
  · rw [(claim_C4 exLayout exPrepared rfl).1]
    rfl
  · exact (claim_C4 exLayout exPrepared rfl).2
      ("fsm_node",
        { files :=
            [ (exLayout.script exLayout.fsm_mock_name, home exLayout.fsm_mock_name,
                "fsm-mock"),
              (exLayout.script exLayout.deploy_script_name,
                home exLayout.deploy_script_name, "node-deploy"),
              (pathJoin exLayout.build_dir exLayout.app_config_name,
                home exLayout.app_config_name, "config") ],
          script := remoteScriptPath exLayout.deploy_script_name })
      (by simp [node_manifests])

/-! Claim theorems for the mock services. -/

/-- C6: a POST of v to the muffin endpoint of the FSM mock returns v, and
a following GET with no intervening POST returns exactly v. -/
theorem claim_C6 (st : FsmState) (v b : String) :
    muffin_handler "POST" v st =
      Except.ok ({ st with my_muffin := v }, Resp.text v) ∧
    muffin_handler "GET" b { st with my_muffin := v } =
      Except.ok ({ st with my_muffin := v }, Resp.text v) := by
  constructor <;> rfl

/-- C7: the SCS mock defaults to port 5000 without -p and both mocks
honor -p with an integer and reject a non-integer, but the FSM mock
without -p reads the never-assigned local server_port instead of
listening on 5000, an unbound local access. -/
theorem claim_C7_divergence :
    fsm_main [] = CliOutcome.unboundLocal "server_port" ∧
    scs_main [] = CliOutcome.listen "5000" ∧
    fsm_main [("-p", "8080")] = CliOutcome.listen "8080" ∧
    scs_main [("-p", "8080")] = CliOutcome.listen "8080" ∧
    fsm_main [("-p", "muffin")] = CliOutcome.usageError
      "server port (\x27muffin\x27) must be an integer value" ∧
    scs_main [("-p", "muffin")] = CliOutcome.usageError
      "server port (\x27muffin\x27) must be an integer value" := by
  refine ⟨rfl, rfl, ?_, ?_, ?_, ?_⟩ <;> decide

/-- C10: a DELETE on the fsm endpoint of the SCS mock with an empty
stored fsm record raises an uncaught KeyError on the key ip instead of
returning a response. -/
theorem claim_C10 (net : Net) (sp body scone0 : String) :
    fsm_handler net sp "DELETE" body { my_scone := scone0, fsm := Json.obj [] } =
      Except.error (PyErr.keyError "ip") := by
  rfl

/-! Lemmas about which exceptions the mock handlers can raise. -/

theorem isInternalErr_bind {α β : Type} (x : Except PyErr α) (f : α → Except PyErr β)
    (hx : isInternalErr x = false) (hf : ∀ a, isInternalErr (f a) = false) :
    isInternalErr (x >>= f) = false := by
  cases x with
  | error e => simpa [Bind.bind, Except.bind, isInternalErr] using hx
  | ok a => simpa [Bind.bind, Except.bind] using hf a

theorem jsonSubscript_not_internal (j : Json) (k : String) :
    isInternalErr (jsonSubscript j k) = false := by
  cases j with
  | obj fields =>
      cases h : dictLookup fields k <;> simp [jsonSubscript, h, isInternalErr, errIsInternal]
  | null => rfl
  | bool b => rfl
  | str s => rfl
  | num n => rfl
  | arr xs => rfl

theorem jsonSetItem_not_internal (j : Json) (k : String) (v : Json) :
    isInternalErr (jsonSetItem j k v) = false := by
  cases j <;> rfl

theorem retrieve_scone_not_internal (net : Net) (ip port : String) :
    isInternalErr (retrieve_scone net ip port) = false := by
  unfold retrieve_scone
  cases net.url_get ("http://" ++ ip ++ ":" ++ port ++ "/scone") with
  | error e => rfl
  | ok r => by_cases hr : r.ok <;> simp [hr, isInternalErr]

theorem new_scs_scone_not_internal (m : List (String × Json)) (sid scone : String) :
    isInternalErr (new_scs_scone m sid scone) = false := by
  cases h : dictLookup m sid with
  | none => simp [new_scs_scone, h, isInternalErr]
  | some v => cases v <;> simp [new_scs_scone, h, isInternalErr, errIsInternal]

theorem scs_list_refresh_not_internal (net : Net) (l : List (String × Json)) :
    ∀ m, isInternalErr (scs_list_refresh net m l) = false := by
  induction l with
  | nil => intro m; rfl
  | cons p rest ih =>
      intro m
      obtain ⟨ip, scs⟩ := p
      simp only [scs_list_refresh]
      exact isInternalErr_bind _ _ (jsonSubscript_not_internal scs "port")
        (fun port => isInternalErr_bind _ _
          (retrieve_scone_not_internal net ip (pyStr port))
          (fun scone => isInternalErr_bind _ _
            (new_scs_scone_not_internal m ip scone)
            (fun m2 => ih m2)))

theorem muffin_internal_iff (method body : String) (st : FsmState) :
    isInternalErr (muffin_handler method body st) = true ↔
      method ∉ (["GET", "POST"] : List String) := by
  by_cases hp : method = "POST"
  · subst hp; simp [muffin_handler, isInternalErr]
  · by_cases hg : method = "GET"
    · subst hg; simp [muffin_handler, isInternalErr]
    · simp [muffin_handler, hp, hg, isInternalErr, errIsInternal]

theorem scone_internal_iff (method body : String) (st : ScsState) :
    isInternalErr (scone_handler method body st) = true ↔
      method ∉ (["GET", "POST"] : List String) := by
  by_cases hp : method = "POST"
  · subst hp; simp [scone_handler, isInternalErr]
  · by_cases hg : method = "GET"
    · subst hg; simp [scone_handler, isInternalErr]
    · simp [scone_handler, hp, hg, isInternalErr, errIsInternal]

theorem scs_list_internal_iff (net : Net) (method ra body : String) (st : FsmState) :
    isInternalErr (scs_list_handler net method ra body st) = true ↔
      method ∉ (["GET", "POST", "DELETE"] : List String) := by
  by_cases hg : method = "GET"
  · subst hg
    have hfalse : isInternalErr (scs_list_handler net "GET" ra body st) = false := by
      simp only [scs_list_handler, if_pos rfl]
      exact isInternalErr_bind _ _
        (scs_list_refresh_not_internal net st.scs_map st.scs_map) (fun m2 => rfl)
    simp [hfalse]
  · by_cases hp : method = "POST"
    · subst hp
      have hfalse : isInternalErr (scs_list_handler net "POST" ra body st) = false := by
        simp only [scs_list_handler]
        cases hjl : net.json_loads body <;> simp [hjl, isInternalErr, errIsInternal]
      simp [hfalse]
    · by_cases hd : method = "DELETE"
      · subst hd
        have hfalse : isInternalErr (scs_list_handler net "DELETE" ra body st) = false := by
          simp [scs_list_handler, isInternalErr]
        simp [hfalse]
      · simp [scs_list_handler, hg, hp, hd, isInternalErr, errIsInternal]

theorem scs_list_item_internal_iff (net : Net) (method sid : String) (st : FsmState) :
    isInternalErr (scs_list_item_handler net method sid st) = true ↔
      method ∉ (["GET", "DELETE"] : List String) := by
  by_cases hg : method = "GET"
  · subst hg
    have hfalse : isInternalErr (scs_list_item_handler net "GET" sid st) = false := by
      simp only [scs_list_item_handler, if_pos rfl]
      exact isInternalErr_bind _ _
        (scs_list_refresh_not_internal net st.scs_map st.scs_map) (fun m2 => rfl)
    simp [hfalse]
  · by_cases hd : method = "DELETE"
    · subst hd
      have hfalse : isInternalErr (scs_list_item_handler net "DELETE" sid st) = false := by
        simp [scs_list_item_handler, isInternalErr]
      simp [hfalse]
    · simp [scs_list_item_handler, hg, hd, isInternalErr, errIsInternal]

theorem fsm_internal_iff (net : Net) (sp method body : String) (st : ScsState) :
    isInternalErr (fsm_handler net sp method body st) = true ↔
      method ∉ (["GET", "POST", "DELETE"] : List String) := by
  by_cases hg : method = "GET"
  · subst hg
    have hfalse : isInternalErr (fsm_handler net sp "GET" body st) = false := by
      simp only [fsm_handler, if_pos rfl]
      by_cases ht : pyTruthy st.fsm
      · simp only [ht, Bool.not_true, Bool.false_eq_true, if_false]
        refine isInternalErr_bind _ _ (jsonSubscript_not_internal _ _) (fun ip => ?_)
        refine isInternalErr_bind _ _ (jsonSubscript_not_internal _ _) (fun port => ?_)
        cases hr : net.url_get ("http://" ++ pyStr ip ++ ":" ++ pyStr port ++ "/muffin") with
        | error e => rfl
        | ok r =>
            by_cases hok : r.ok
            · simp only [hok, Bool.not_true, Bool.false_eq_true, if_false]
              exact isInternalErr_bind _ _
                (jsonSetItem_not_internal st.fsm "muffin" (Json.str r.text))
                (fun fsm2 => rfl)
            · simp [hok, isInternalErr]
      · simp [ht, isInternalErr]
    simp [hfalse]
  · by_cases hp : method = "POST"
    · subst hp
      have hfalse : isInternalErr (fsm_handler net sp "POST" body st) = false := by
        simp only [fsm_handler]
        cases hjl : net.json_loads body with
        | error e => simp [hjl, isInternalErr, errIsInternal]
        | ok fsm_data =>
            simp only [hjl]
            cases hip : jsonSubscript fsm_data "ip" with
            | error e =>
                have hni := jsonSubscript_not_internal fsm_data "ip"
                rw [hip] at hni
                cases e <;> simp_all [isInternalErr, errIsInternal]
            | ok ip =>
                simp only []
                cases hport : jsonSubscript fsm_data "port" with
                | error e =>
                    have hni := jsonSubscript_not_internal fsm_data "port"
                    rw [hport] at hni
                    cases e <;> simp_all [isInternalErr, errIsInternal]
                | ok port =>
                    simp only []
                    cases hpost : net.url_post
                        ("http://" ++ pyStr ip ++ ":" ++ pyStr port ++ "/scs_list")
                        (Json.obj [("port", Json.str sp)]) with
                    | error e => simp [isInternalErr, errIsInternal]
                    | ok r =>
                        by_cases hok : r.ok
                        · simp only [hok, Bool.not_true, Bool.false_eq_true, if_false]
                          cases hget : net.url_get
                              ("http://" ++ pyStr ip ++ ":" ++ pyStr port ++ "/muffin") with
                          | error e => simp [isInternalErr, errIsInternal]
                          | ok r2 =>
                              by_cases hok2 : r2.ok
                              · simp only [hok2, Bool.not_true, Bool.false_eq_true, if_false]
                                exact isInternalErr_bind _ _
                                  (jsonSetItem_not_internal fsm_data "muffin" (Json.str r2.text))
                                  (fun d => rfl)
                              · simp [hok2, isInternalErr]
                        · simp [hok, isInternalErr]
      simp [hfalse]
    · by_cases hd : method = "DELETE"
      · subst hd
        have hfalse : isInternalErr (fsm_handler net sp "DELETE" body st) = false := by
          simp only [fsm_handler]
          refine isInternalErr_bind _ _ (jsonSubscript_not_internal _ _) (fun ip => ?_)
          refine isInternalErr_bind _ _ (jsonSubscript_not_internal _ _) (fun port => ?_)
          cases hr : net.url_delete
              ("http://" ++ pyStr ip ++ ":" ++ pyStr port ++ "/scs_list") with
          | error e => rfl
          | ok r => by_cases hok : r.ok <;> simp [hok, isInternalErr]
        simp [hfalse]
      · simp [fsm_handler, hg, hp, hd, isInternalErr, errIsInternal]

/-- C8: each mock route handler raises the internal ContextualError
exactly on a request method outside the methods declared for its route,
so that raise is unreachable for every dispatched method. -/
theorem claim_C8 (net : Net) (sp method ra body sid : String)
    (fst : FsmState) (sst : ScsState) :
    (isInternalErr (muffin_handler method body fst) = true ↔
      method ∉ (["GET", "POST"] : List String)) ∧
    (isInternalErr (scs_list_handler net method ra body fst) = true ↔
      method ∉ (["GET", "POST", "DELETE"] : List String)) ∧
    (isInternalErr (scs_list_item_handler net method sid fst) = true ↔
      method ∉ (["GET", "DELETE"] : List String)) ∧
    (isInternalErr (scone_handler method body sst) = true ↔
      method ∉ (["GET", "POST"] : List String)) ∧
    (isInternalErr (fsm_handler net sp method body sst) = true ↔
      method ∉ (["GET", "POST", "DELETE"] : List String)) :=
  ⟨muffin_internal_iff method body fst,
    scs_list_internal_iff net method ra body fst,
    scs_list_item_internal_iff net method sid fst,
    scone_internal_iff method body sst,
    fsm_internal_iff net sp method body sst⟩

/-- Witness for C8: a PUT to the muffin route is an internal error and a
GET is not. -/
theorem claim_C8_witness :
    isInternalErr (muffin_handler "PUT" "m" exFsm0) = true ∧
    isInternalErr (muffin_handler "GET" "m" exFsm0) = false := by
  constructor
  · exact (claim_C8 exNet "5000" "PUT" "1.2.3.4" "m" "x" exFsm0 exScs0).1.mpr (by decide)
  · cases hb : isInternalErr (muffin_handler "GET" "m" exFsm0) with
    | false => rfl
    | true =>
        exact absurd
          ((claim_C8 exNet "5000" "GET" "1.2.3.4" "m" "x" exFsm0 exScs0).1.mp hb)
          (by simp)

/-! Claim theorem for the SCS fsm registration flow. -/

theorem dictLookup_insert_self {V : Type} (d : List (String × V)) (k : String) (v : V) :
    dictLookup (dictInsert d k v) k = some v := by
  induction d with
  | nil => simp [dictInsert, dictLookup]
  | cons p rest ih =>
      obtain ⟨k0, v0⟩ := p
      by_cases h : k0 = k <;> simp [dictInsert, dictLookup, h, ih]

/-- C9: a POST to the fsm endpoint of the SCS mock whose body supplies
the peer ip and port, when the registration POST and the muffin GET to
the peer both succeed and the peer serves its muffin per the FSM mock,
stores an fsm record whose muffin field equals the peer current muffin
value and returns that record as JSON. -/
theorem claim_C9 (net : Net) (sp body : String) (st : ScsState)
    (fs : List (String × Json)) (ip port : Json) (peer : FsmState)
    (rr rm : HttpResp)
    (hparse : net.json_loads body = Except.ok (Json.obj fs))
    (hip : dictLookup fs "ip" = some ip)
    (hport : dictLookup fs "port" = some port)
    (hreg : net.url_post ("http://" ++ pyStr ip ++ ":" ++ pyStr port ++ "/scs_list")
      (Json.obj [("port", Json.str sp)]) = Except.ok rr)
    (hregok : rr.ok = true)
    (hpeer : net.url_get ("http://" ++ pyStr ip ++ ":" ++ pyStr port ++ "/muffin") =
      Except.ok rm)
    (hmok : rm.ok = true)
    (hserve : muffin_handler "GET" "" peer = Except.ok (peer, Resp.text rm.text)) :
    fsm_handler net sp "POST" body st =
      Except.ok
        ({ st with fsm := Json.obj (dictInsert fs "muffin" (Json.str rm.text)) },
          Resp.jsonBody (Json.obj (dictInsert fs "muffin" (Json.str rm.text)))) ∧
    dictLookup (dictInsert fs "muffin" (Json.str rm.text)) "muffin" =
      some (Json.str peer.my_muffin) := by
  have htext : peer.my_muffin = rm.text := by
    have h1 : (Except.ok (peer, Resp.text peer.my_muffin) :
        Except PyErr (FsmState × Resp)) = Except.ok (peer, Resp.text rm.text) := by
      rw [← hserve]; rfl
    injection h1 with h2
    injection h2 with h3 h4
    injection h4 with h5
  constructor
  · simp only [fsm_handler, hparse, jsonSubscript, hip, hport, hreg, hpeer,
      hregok, hmok, jsonSetItem, Bool.not_true, Bool.false_eq_true, if_false,
      Bind.bind, Except.bind]
    rfl
  · rw [htext]
    exact dictLookup_insert_self fs "muffin" (Json.str rm.text)

/-- Witness for C9 at a concrete network, body and peer. -/
theorem claim_C9_witness :
    fsm_handler exNet "5000" "POST" exBody exScs0 =
      Except.ok ({ exScs0 with fsm := Json.obj exRecord },
        Resp.jsonBody (Json.obj exRecord)) ∧
    dictLookup exRecord "muffin" = some (Json.str "blueberry") := by
  have h := claim_C9 exNet "5000" exBody exScs0
    [("ip", Json.str "10.0.0.1"), ("port", Json.str "5000")]
    (Json.str "10.0.0.1") (Json.str "5000") exPeer
    { ok := true, text := "\x7b\x7d", as_str := "<Response [200]>" }
    { ok := true, text := "blueberry", as_str := "<Response [200]>" }
    rfl rfl rfl rfl rfl rfl rfl rfl
  exact h

end VtdsDemo
